import Mathlib

/-!
Verification development for the FMCG data-analytics transaction-synthesis
engine.  The definitions below are a shallow embedding of the Python source:

* `generateFactSales` embeds `generate_fact_sales`
  (FMCG/generators/dimensional.py, lines 1208-1386);
* `appendDfBqSafe` embeds `append_df_bq_safe` (FMCG/helpers.py, lines 52-158);
* `genUniqueIdTimestamp` / `generateUniqueId` embed `generate_unique_id`
  (FMCG/id_generation.py, lines 18-54), on top of a full MD5 implementation;
* `generateKey` embeds `IDGenerator.generate_key` (FMCG/id_generator.py,
  lines 45-57).

Python floats are modelled as exact rationals and dates as integer day
numbers (day 0 = 1970-01-01).  A central fact shapes the `generateFactSales`
embedding: the source's sale-emitting body can never complete.  Line 1355
calls `generate_unique_sale_key()` with no arguments while the imported
function (id_generation.py, line 71) requires five positional arguments, so
on the first date with available employees and products a `TypeError` is
raised while the first record's dict is being built — before the record is
assembled, appended, or counted.  Consequently the function's observable
behaviour is deterministic (all random draws happen inside the doomed body
and cannot influence the result, so no randomness oracle is needed) and every
run either raises — `ValueError` for an empty retailer list or, via `min()`
on an empty sequence, for empty employee/product lists; `TypeError` once a
sale-emitting date is reached (which requires a positive target, or the day
loop is not entered); `ZeroDivisionError` from the final summary print (line
1385) when the target is zero — or returns normally with an empty sale list.
Dimension records are assumed to carry the fields the generator reads
(`employee_id`, `product_id`, `retail_price`, the date fields), as the
repository's dimension generators produce them.
-/

namespace FMCG

/-- Gregorian calendar year of a day number (days since 1970-01-01), following
the standard civil-from-days algorithm; embeds Python's `date.year`. -/
def civilYear (z : ℤ) : ℤ :=
  let days := z + 719468
  let era := days / 146097
  let doe := days % 146097
  let yoe := (doe - doe / 1460 + doe / 36524 - doe / 146096) / 365
  let y := yoe + era * 400
  let doy := doe - (365 * yoe + yoe / 4 - yoe / 100)
  let mp := (5 * doy + 2) / 153
  let m := mp + (if mp < 10 then 3 else (-9 : ℤ))
  if m ≤ 2 then y + 1 else y

example : civilYear 0 = 1970 := by decide
example : civilYear 16436 = 2015 := by decide
example : civilYear 18048 = 2019 := by decide
example : civilYear 18627 = 2020 := by decide
example : civilYear 18628 = 2021 := by decide
example : civilYear 19000 = 2022 := by decide

/-- Employee dimension record: the fields of the Python dicts that
`generate_fact_sales` reads.  `none` models an absent/None value. -/
structure Employee where
  employee_id : ℕ
  hire_date : Option ℤ
  employment_status : String
  termination_date : Option ℤ
  deriving Repr, DecidableEq

/-- Product dimension record. -/
structure Product where
  product_id : ℕ
  created_date : Option ℤ
  status : String
  retail_price : ℚ
  deriving Repr, DecidableEq

/-- Retailer dimension record: only `retailer_id` is read by the generator. -/
structure Retailer where
  retailer_id : ℕ
  deriving Repr, DecidableEq

/-- Campaign dimension record. -/
structure Campaign where
  campaign_id : ℕ
  start_date : ℤ
  end_date : ℤ
  deriving Repr, DecidableEq

/-- The record shape of a sales-fact row.  The first seventeen fields are the
keys of the dict that lines 1354-1373 of `generate_fact_sales` would append;
the last three mirror the internal employee/product/campaign draws that the
spec's claims refer to.  Because the zero-argument `generate_unique_sale_key()`
call at line 1355 raises `TypeError` before any such dict is assembled, no
value of this type is ever produced by the embedded function: the type exists
to state the claims' per-transaction properties over the (always empty)
output. -/
structure Sale where
  sale_id : ℕ
  sale_date : ℤ
  product_id : ℕ
  retailer_id : ℕ
  case_quantity : ℕ
  unit_price : ℚ
  discount_percent : ℚ
  discount_amount : ℚ
  tax_rate : ℚ
  tax_amount : ℚ
  total_amount : ℚ
  commission_amount : ℚ
  currency : String
  payment_method : String
  payment_status : String
  delivery_status : String
  expected_delivery_date : ℤ
  actual_delivery_date : Option ℤ
  employee : Employee
  product : Product
  campaign : Option Campaign
  deriving Repr, DecidableEq

/-- Availability filter for employees on day `d` (lines 1264-1268):
`hire_date` present and at most `d`, and either not `Terminated` or with a
termination date at `d` or later. -/
def employeeAvailable (d : ℤ) (e : Employee) : Bool :=
  (match e.hire_date with
   | none => false
   | some h => decide (h ≤ d))
  && ((e.employment_status != "Terminated")
      || (match e.termination_date with
          | none => false
          | some t => decide (d ≤ t)))

/-- Employee pool for day `d`, including the historical fallback of lines
1271-1272: if no employee passes the filter and the year is at most 2020, all
`Active` employees are used instead. -/
def employeesForDay (employees : List Employee) (d : ℤ) : List Employee :=
  let avail := employees.filter (employeeAvailable d)
  if avail = [] ∧ civilYear d ≤ 2020 then
    employees.filter (fun e => e.employment_status == "Active")
  else avail

/-- Availability filter for products on day `d` (lines 1277-1280):
`created_date` present and at most `d`. -/
def productAvailable (d : ℤ) (p : Product) : Bool :=
  match p.created_date with
  | none => false
  | some c => decide (c ≤ d)

/-- Product pool for day `d`, including the historical fallback of lines
1283-1284: if no product passes the filter and the year is at most 2020, all
`Active` products are used instead. -/
def productsForDay (products : List Product) (d : ℤ) : List Product :=
  let avail := products.filter (productAvailable d)
  if avail = [] ∧ civilYear d ≤ 2020 then
    products.filter (fun p => p.status == "Active")
  else avail

/-- Day scan of the while loop (lines 1261-1382) for a positive target: the
loop advances past dates whose employee or product pool is empty (lines
1287-1289) and enters the sale-emitting body on the first date where both
pools are non-empty — where the source then raises the line-1355 `TypeError`
while building the first record.  Returns `true` iff such a date exists among
the `fuel` days starting at `current` and bounded by `endD`. -/
def saleDayScan (employees : List Employee) (products : List Product) (endD : ℤ) :
    ℕ → ℤ → Bool
  | 0, _ => false
  | fuel + 1, current =>
    if current ≤ endD then
      if employeesForDay employees current = [] ∨ productsForDay products current = [] then
        saleDayScan employees products endD fuel (current + 1)
      else true
    else false

/-- Day number of `date(2015, 1, 1)`, the `historical_start_date` of line 1236. -/
def histStart : ℤ := 16436

/-- Embedding of `generate_fact_sales` (lines 1208-1386).  `today` is the
value of `date.today()`; `start_date?`/`end_date?` model the optional
arguments.  Error paths, in the order the source hits them: the explicit
`ValueError` on an empty retailer pool (line 1224); Python's `min()` failure
on an empty employee or product list (lines 1237-1238); the `TypeError` from
the zero-argument `generate_unique_sale_key()` call (line 1355), raised as
soon as the day loop — entered only for a positive target, since the loop
condition requires `current_amount < target_amount * 1.4` with
`current_amount = 0` — reaches a date with non-empty pools; and the
`ZeroDivisionError` of the summary print (line 1385) when the target is zero.
All remaining runs return normally, necessarily with an empty sale list.
In the `min` defaults a `none` date is mapped to `today` like an absent key
(`e.get('hire_date', date.today())`); a dict storing an explicit `None` would
instead make `min` raise, a case no claim depends on. -/
def generateFactSales (employees : List Employee) (products : List Product)
    (retailers : List Retailer) (campaigns : List Campaign) (target : ℚ)
    (start_date? end_date? : Option ℤ) (today : ℤ) : Except String (List Sale) :=
  let startD := start_date?.getD today
  let endD := end_date?.getD startD
  if retailers = [] then Except.error "ValueError: No retailers found for sales generation"
  else if employees = [] then Except.error "ValueError: min() arg is an empty sequence"
  else if products = [] then Except.error "ValueError: min() arg is an empty sequence"
  else
    let earliestEmployeeDate := ((employees.map (fun e => e.hire_date.getD today)).min?).getD today
    let earliestProductDate := ((products.map (fun p => p.created_date.getD today)).min?).getD today
    let earliestAvailable := max histStart (max earliestEmployeeDate earliestProductDate)
    let actualStart0 := max startD earliestAvailable
    let actualStart := if endD < actualStart0 then startD else actualStart0
    let fuel := (endD - actualStart + 1).toNat
    if 0 < target ∧ saleDayScan employees products endD fuel actualStart = true then
      Except.error "TypeError: generate_unique_sale_key() missing 5 required positional arguments"
    else if target = 0 then
      Except.error "ZeroDivisionError: float division by zero"
    else Except.ok []

/-- The error payload of a result, `none` on a normal return (used to state
which exception a concrete run raises). -/
def errOf (e : Except String (List Sale)) : Option String :=
  match e with
  | Except.error s => some s
  | Except.ok _ => none

/-! ### IncrementalLoadGuard: `append_df_bq_safe` (helpers.py, lines 52-158)

A DataFrame batch is modelled as the list of its id-column values (with
multiplicity): id values are the only data the function's control flow reads,
and the returned count is the number of remaining rows.  The BigQuery
duplicate query (lines 115-122) is modelled by its result list `qres`;
`validQuery` characterizes the results the SQL can return: distinct ids that
occur both in the destination and among the candidates, at most 1000 of them
(the query ends in `LIMIT 1000`), and all of the matching ids whenever there
are at most 1000 matches. -/

/-- The duplicate-filtering step of `append_df_bq_safe` (lines 124-137):
if the query returned ids and at least one candidate row matches, drop all
matching rows; otherwise keep the batch unchanged. -/
def appendFiltered (df qres : List ℕ) : List ℕ :=
  if qres ≠ [] ∧ 0 < (df.filter (fun x => decide (x ∈ qres))).length then
    df.filter (fun x => !decide (x ∈ qres))
  else df

/-- `append_df_bq_safe`: returns the number of rows persisted after duplicate
filtering; an empty batch or a fully-filtered batch persists nothing. -/
def appendDfBqSafe (df qres : List ℕ) : ℕ :=
  if df = [] then 0
  else if appendFiltered df qres = [] then 0
  else (appendFiltered df qres).length

/-- Results the duplicate SQL query can return, for destination ids `dest`
and candidate batch `cand`: `SELECT DISTINCT id WHERE id IN cand LIMIT 1000`. -/
def validQuery (dest cand qres : List ℕ) : Prop :=
  qres.Nodup ∧ (∀ x ∈ qres, x ∈ dest ∧ x ∈ cand) ∧ qres.length ≤ 1000 ∧
  ((dest.filter (fun x => decide (x ∈ cand))).dedup.length ≤ 1000 →
    ∀ x ∈ dest, x ∈ cand → x ∈ qres)

instance validQueryDec (dest cand qres : List ℕ) : Decidable (validQuery dest cand qres) := by
  unfold validQuery
  infer_instance

/-! ### IDAllocator: `generate_unique_id` (id_generation.py, lines 18-54) and
`IDGenerator.generate_key` (id_generator.py, lines 45-57)

`generate_unique_id` keys a process-global sequence counter by entity type;
with `use_timestamp=True` (the default) it returns the integer value of the
first 12 hex digits of `md5(f"{session_id}{entity_type}{timestamp_ms}{seq}")`
where `timestamp_ms = timestamp_base + seq`, reduced mod `2^63 - 1` when too
large; with `use_timestamp=False` it returns the counter itself.  MD5 is
implemented below in full (RFC 1321) so that concrete hash values are
computable in proofs. -/

/-- Left-rotation of a 32-bit word. -/
def rotl32 (x n : ℕ) : ℕ := ((x <<< n) % 4294967296) ||| (x >>> (32 - n))

/-- MD5 round constants `K[i] = floor(abs(sin(i+1)) * 2^32)`. -/
def mdK : ℕ → ℕ := fun i =>
  [3614090360, 3905402710, 606105819, 3250441966,
  4118548399, 1200080426, 2821735955, 4249261313,
  1770035416, 2336552879, 4294925233, 2304563134,
  1804603682, 4254626195, 2792965006, 1236535329,
  4129170786, 3225465664, 643717713, 3921069994,
  3593408605, 38016083, 3634488961, 3889429448,
  568446438, 3275163606, 4107603335, 1163531501,
  2850285829, 4243563512, 1735328473, 2368359562,
  4294588738, 2272392833, 1839030562, 4259657740,
  2763975236, 1272893353, 4139469664, 3200236656,
  681279174, 3936430074, 3572445317, 76029189,
  3654602809, 3873151461, 530742520, 3299628645,
  4096336452, 1126891415, 2878612391, 4237533241,
  1700485571, 2399980690, 4293915773, 2240044497,
  1873313359, 4264355552, 2734768916, 1309151649,
  4149444226, 3174756917, 718787259, 3951481745].getD i 0

/-- MD5 per-round left-rotation amounts. -/
def mdS : ℕ → ℕ := fun i =>
  [7, 12, 17, 22, 7, 12, 17, 22, 7, 12, 17, 22, 7, 12, 17, 22,
   5, 9, 14, 20, 5, 9, 14, 20, 5, 9, 14, 20, 5, 9, 14, 20,
   4, 11, 16, 23, 4, 11, 16, 23, 4, 11, 16, 23, 4, 11, 16, 23,
   6, 10, 15, 21, 6, 10, 15, 21, 6, 10, 15, 21, 6, 10, 15, 21].getD i 0

/-- Little-endian 32-bit word `i` of a 64-byte chunk. -/
def leWord (chunk : List ℕ) (i : ℕ) : ℕ :=
  chunk.getD (4 * i) 0 + 256 * chunk.getD (4 * i + 1) 0 +
    65536 * chunk.getD (4 * i + 2) 0 + 16777216 * chunk.getD (4 * i + 3) 0

/-- One MD5 round step on the state `(a, b, c, d)`. -/
def mdStep (chunk : List ℕ) (st : ℕ × ℕ × ℕ × ℕ) (i : ℕ) : ℕ × ℕ × ℕ × ℕ :=
  let a := st.1
  let b := st.2.1
  let c := st.2.2.1
  let d := st.2.2.2
  let f :=
    if i < 16 then (b &&& c) ||| ((b ^^^ 4294967295) &&& d)
    else if i < 32 then (d &&& b) ||| ((d ^^^ 4294967295) &&& c)
    else if i < 48 then b ^^^ c ^^^ d
    else c ^^^ (b ||| (d ^^^ 4294967295))
  let g :=
    if i < 16 then i
    else if i < 32 then (5 * i + 1) % 16
    else if i < 48 then (3 * i + 5) % 16
    else (7 * i) % 16
  let rot := rotl32 ((a + f + mdK i + leWord chunk g) % 4294967296) (mdS i)
  (d, (b + rot) % 4294967296, b, c)

/-- MD5 compression of one 64-byte chunk. -/
def md5block (chunk : List ℕ) (st : ℕ × ℕ × ℕ × ℕ) : ℕ × ℕ × ℕ × ℕ :=
  let fin := (List.range 64).foldl (mdStep chunk) st
  ((st.1 + fin.1) % 4294967296, (st.2.1 + fin.2.1) % 4294967296,
   (st.2.2.1 + fin.2.2.1) % 4294967296, (st.2.2.2 + fin.2.2.2) % 4294967296)

/-- Compression folded over all 64-byte chunks (`fuel` bounds recursion). -/
def md5loop : ℕ → List ℕ → (ℕ × ℕ × ℕ × ℕ) → ℕ × ℕ × ℕ × ℕ
  | 0, _, st => st
  | _ + 1, [], st => st
  | fuel + 1, bytes, st => md5loop fuel (bytes.drop 64) (md5block (bytes.take 64) st)

/-- MD5 padding: append `0x80`, zero bytes to 56 mod 64, then the bit length
as a 64-bit little-endian number. -/
def md5pad (msg : List ℕ) : List ℕ :=
  let len := msg.length
  let padLen := (119 - len % 64) % 64
  msg ++ [128] ++ List.replicate padLen 0 ++
    (List.range 8).map (fun i => ((8 * len) % 18446744073709551616) >>> (8 * i) % 256)

/-- The 16 digest bytes of the MD5 of a byte string. -/
def md5bytes (msg : List ℕ) : List ℕ :=
  let padded := md5pad msg
  let st := md5loop padded.length padded (1732584193, 4023233417, 2562383102, 271733878)
  [st.1 % 256, (st.1 >>> 8) % 256, (st.1 >>> 16) % 256, (st.1 >>> 24) % 256,
   st.2.1 % 256, (st.2.1 >>> 8) % 256, (st.2.1 >>> 16) % 256, (st.2.1 >>> 24) % 256,
   st.2.2.1 % 256, (st.2.2.1 >>> 8) % 256, (st.2.2.1 >>> 16) % 256, (st.2.2.1 >>> 24) % 256,
   st.2.2.2 % 256, (st.2.2.2 >>> 8) % 256, (st.2.2.2 >>> 16) % 256, (st.2.2.2 >>> 24) % 256]

/-- The integer value of the first `k` hex digits (`k/2` bytes, `k` even) of
the MD5 hexdigest — Python's `int(md5(msg).hexdigest()[:k], 16)`. -/
def md5hexVal (k : ℕ) (msg : List ℕ) : ℕ :=
  ((md5bytes msg).take (k / 2)).foldl (fun acc x => acc * 256 + x) 0

/-- ASCII bytes of a string. -/
def strBytes (s : String) : List ℕ := s.toList.map Char.toNat

/-- ASCII decimal digits of a natural number, most significant first, with a
fuel argument for structural recursion. -/
def decDigitsAux : ℕ → ℕ → List ℕ
  | 0, _ => []
  | fuel + 1, n => if n < 10 then [48 + n] else decDigitsAux fuel (n / 10) ++ [48 + n % 10]

/-- ASCII bytes of Python's `str(n)` for a natural number. -/
def decBytes (n : ℕ) : List ℕ := decDigitsAux (n + 1) n

/-- The id returned by `generate_unique_id` under the default
`use_timestamp=True` strategy, for a given process (`session` = the 8-char
`session_id`, `base` = `timestamp_base`) and sequence value `seq`:
`md5(f"{session_id}{entity_type}{timestamp_base + seq}{seq}")`, first 12 hex
digits as an integer, reduced mod `2^63 - 1` when larger (lines 37-51). -/
def genUniqueIdTimestamp (session entity : List ℕ) (base seq : ℕ) : ℕ :=
  let h := md5hexVal 12 (session ++ entity ++ decBytes (base + seq) ++ decBytes seq)
  if 9223372036854775807 < h then h % 9223372036854775807 else h

/-- The mutable `sequence_counters` dictionary of `ID_GENERATOR_STATE`; a
missing entity type is the value 0 (the code initializes absent keys to 0
before incrementing). -/
structure IdGenState where
  counters : String → ℕ

/-- One call of `generate_unique_id` (lines 18-54): increment the entity's
counter, then return either the hash-derived id (timestamp strategy) or the
bare counter. -/
def generateUniqueId (session : List ℕ) (base : ℕ) (st : IdGenState) (entity : String)
    (useTimestamp : Bool) : ℕ × IdGenState :=
  let seq := st.counters entity + 1
  let st' : IdGenState := ⟨fun e => if e = entity then seq else st.counters e⟩
  ((if useTimestamp then genUniqueIdTimestamp session (strBytes entity) base seq else seq), st')

/-- `n` successive calls of `generate_unique_id` for one entity type, from the
process-start state: the list of returned ids and the final state. -/
def runUniqueIds (session : List ℕ) (base : ℕ) (entity : String) (useTimestamp : Bool) :
    ℕ → List ℕ × IdGenState
  | 0 => ([], ⟨fun _ => 0⟩)
  | n + 1 =>
    let prev := runUniqueIds session base entity useTimestamp n
    let r := generateUniqueId session base prev.2 entity useTimestamp
    (prev.1 ++ [r.1], r.2)

/-- The `IDGenerator.counters` dictionary; `none` models an absent table. -/
structure KeyGenState where
  counters : String → Option ℕ

/-- The hash-derived initial offset of a table's counter (lines 50-53):
`int(md5(f"{table_name}_{seed}").hexdigest()[:8], 16) % 10000 + 1`. -/
def tableOffset (seed : ℕ) (table : String) : ℕ :=
  md5hexVal 8 (strBytes table ++ [95] ++ decBytes seed) % 10000 + 1

/-- One call of `IDGenerator.generate_key` (lines 45-57): initialize the
counter on first use, return it, and post-increment. -/
def generateKey (seed : ℕ) (st : KeyGenState) (table : String) : ℕ × KeyGenState :=
  match st.counters table with
  | none =>
    let c0 := tableOffset seed table
    (c0, ⟨fun t => if t = table then some (c0 + 1) else st.counters t⟩)
  | some c => (c, ⟨fun t => if t = table then some (c + 1) else st.counters t⟩)

/-- `n` successive calls of `IDGenerator.generate_key` for one table. -/
def runKeys (seed : ℕ) (table : String) : ℕ → List ℕ × KeyGenState
  | 0 => ([], ⟨fun _ => none⟩)
  | n + 1 =>
    let prev := runKeys seed table n
    let r := generateKey seed prev.2 table
    (prev.1 ++ [r.1], r.2)

/-! ### Concrete scenarios used for witnesses and counterexamples -/

/-- One employee hired on day 18000 (2019-04-14), active. -/
def cx1emps : List Employee := [⟨1, some 18000, "Active", none⟩]

/-- One product created on day 18100 (2019-07-23). -/
def cx1prods : List Product := [⟨101, some 18100, "Active", 10⟩]

/-- One retailer. -/
def cx1rets : List Retailer := [⟨201⟩]

/-- A product created on day 19100: on the 2022 horizon below, the strict
product filter is empty and the year is past the 2020 fallback cutoff, so
every day is skipped. -/
def okProds : List Product := [⟨101, some 19100, "Active", 10⟩]

/-- A run that completes normally: the single day 19000 (2022-01-08) has an
available employee but an empty product pool (no fallback in 2022), so the
loop skips its only day and the function returns an empty list. -/
def okRun : Except String (List Sale) :=
  generateFactSales cx1emps okProds cx1rets [] 1000 (some 19000) (some 19000) 20000

/-- The (empty) output of `okRun`. -/
def okOut : List Sale := okRun.toOption.getD []

/-- A product created on day 18000, available on the 2019 horizon below. -/
def crashProds : List Product := [⟨101, some 18000, "Active", 10⟩]

/-- A run that reaches the sale-emitting body: on day 18048 (2019-06-01) the
employee and product pools are both non-empty and the target is positive, so
the source raises the line-1355 `TypeError` while building the first
record. -/
def crashRun : Except String (List Sale) :=
  generateFactSales cx1emps crashProds cx1rets [] 1 (some 18048) (some 18048) 20000

/-! ### Helper lemmas about the embedding -/

/-- A normally-returning `Except` value is `Except.ok` of its unwrapped
option; checking `isSome` only inspects the outer constructor, which keeps
the evaluation of concrete runs shallow. -/
theorem except_eq_ok {ε α : Type} (e : Except ε α) (d : α) (h : e.toOption.isSome = true) :
    e = Except.ok (e.toOption.getD d) := by
  cases e with
  | error err => simp [Except.toOption] at h
  | ok v => simp [Except.toOption]

/-- Every normal return of `generateFactSales` is the empty list: a run
either raises (empty pools, the line-1355 `TypeError` on the first
sale-emitting date, or the line-1385 `ZeroDivisionError`) or completes having
skipped every day, so no transaction is ever emitted. -/
theorem generateFactSales_ok_empty (E : List Employee) (P : List Product) (R : List Retailer)
    (C : List Campaign) (target : ℚ) (sd? ed? : Option ℤ) (today : ℤ) (out : List Sale)
    (h : generateFactSales E P R C target sd? ed? today = Except.ok out) : out = [] := by
  simp only [generateFactSales] at h
  repeat' split at h
  all_goals first
    | exact (Except.ok.inj h).symm
    | exact absurd h (by simp)

/-! ### Claim theorems -/

/-- C1: for every transaction emitted by `generate_fact_sales`, the
referenced product's `created_date` is on or before the sale date and the
referenced employee is hired on or before the sale date and not terminated
before it.  This holds vacuously: every normal return of the function is the
empty list (the line-1355 `TypeError` precedes any emission), which the first
conjunct states explicitly. -/
theorem C1_theorem (E : List Employee) (P : List Product) (R : List Retailer)
    (C : List Campaign) (target : ℚ) (sd? ed? : Option ℤ) (today : ℤ) (out : List Sale)
    (h : generateFactSales E P R C target sd? ed? today = Except.ok out) :
    out = [] ∧ ∀ s ∈ out,
      (∃ c, s.product.created_date = some c ∧ c ≤ s.sale_date) ∧
      (∃ hh, s.employee.hire_date = some hh ∧ hh ≤ s.sale_date) ∧
      (∀ td, s.employee.termination_date = some td → s.sale_date ≤ td) := by
  have he := generateFactSales_ok_empty E P R C target sd? ed? today out h
  subst he
  exact ⟨rfl, fun s hs => absurd hs (by simp)⟩

/-- C1 witness: the theorem applied to a concrete normally-returning run. -/
theorem C1_witness :
    okOut = [] ∧ ∀ s ∈ okOut,
      (∃ c, s.product.created_date = some c ∧ c ≤ s.sale_date) ∧
      (∃ hh, s.employee.hire_date = some hh ∧ hh ≤ s.sale_date) ∧
      (∀ td, s.employee.termination_date = some td → s.sale_date ≤ td) :=
  C1_theorem cx1emps okProds cx1rets [] 1000 (some 19000) (some 19000) 20000 okOut
    (except_eq_ok okRun [] (by with_unfolding_all decide))

/-- C3: for every transaction emitted by `generate_fact_sales`,
`total_amount` is within 0.01 of
`(case_quantity * unit_price - discount_amount) * (1 + tax_rate)` and
`commission_amount = total_amount * commission_rate` (5% with a campaign, 3%
without).  This holds vacuously: every normal return is the empty list, which
the first conjunct states explicitly. -/
theorem C3_theorem (E : List Employee) (P : List Product) (R : List Retailer)
    (C : List Campaign) (target : ℚ) (sd? ed? : Option ℤ) (today : ℤ) (out : List Sale)
    (h : generateFactSales E P R C target sd? ed? today = Except.ok out) :
    out = [] ∧ ∀ s ∈ out,
      |s.total_amount -
          ((s.case_quantity : ℚ) * s.unit_price - s.discount_amount) * (1 + s.tax_rate)| ≤
        1/100 ∧
      s.commission_amount = s.total_amount * (if s.campaign.isSome then 5/100 else 3/100) := by
  have he := generateFactSales_ok_empty E P R C target sd? ed? today out h
  subst he
  exact ⟨rfl, fun s hs => absurd hs (by simp)⟩

/-- C3 witness: the theorem applied to a concrete normally-returning run. -/
theorem C3_witness :
    okOut = [] ∧ ∀ s ∈ okOut,
      |s.total_amount -
          ((s.case_quantity : ℚ) * s.unit_price - s.discount_amount) * (1 + s.tax_rate)| ≤
        1/100 ∧
      s.commission_amount = s.total_amount * (if s.campaign.isSome then 5/100 else 3/100) :=
  C3_theorem cx1emps okProds cx1rets [] 1000 (some 19000) (some 19000) 20000 okOut
    (except_eq_ok okRun [] (by with_unfolding_all decide))

/-- C4 counterexample: with `end_date` (18047) strictly before `start_date`
(18048) — a degenerate range with `total_days = 0` — and a non-zero target,
`generate_fact_sales` returns normally with an empty list instead of raising
a configuration error. -/
theorem C4_counterexample :
    (generateFactSales cx1emps cx1prods cx1rets [] 1000 (some 18048) (some 18047)
      20000).toOption = some [] ∧ (18047 : ℤ) < 18048 := by
  refine ⟨?_, by decide⟩
  with_unfolding_all decide

/-- C4 (amended): `generate_fact_sales` performs no date validation.  On
non-empty pools, a call with `end_date` strictly before `start_date` returns
normally with an empty sale list when the target is non-zero, and raises
`ZeroDivisionError` (from the summary print at line 1385) when the target is
zero — in neither case an explicit configuration error. -/
theorem C4_theorem (E : List Employee) (P : List Product) (R : List Retailer)
    (C : List Campaign) (target : ℚ) (startD endD today : ℤ)
    (hR : R ≠ []) (hE : E ≠ []) (hP : P ≠ []) (hlt : endD < startD) :
    (target ≠ 0 →
      generateFactSales E P R C target (some startD) (some endD) today = Except.ok []) ∧
    (target = 0 →
      generateFactSales E P R C target (some startD) (some endD) today =
        Except.error "ZeroDivisionError: float division by zero") := by
  have hbase : generateFactSales E P R C target (some startD) (some endD) today =
      (if target = 0 then Except.error "ZeroDivisionError: float division by zero"
       else Except.ok []) := by
    simp only [generateFactSales, Option.getD_some]
    rw [if_neg hR, if_neg hE, if_neg hP]
    have hM : endD < startD ⊔ (histStart ⊔
        (((E.map (fun e => e.hire_date.getD today)).min?).getD today ⊔
          ((P.map (fun p => p.created_date.getD today)).min?).getD today)) :=
      lt_of_lt_of_le hlt le_sup_left
    rw [if_pos hM]
    have hfuel : (endD - startD + 1).toNat = 0 := by omega
    rw [hfuel]
    rw [if_neg (by simp [saleDayScan])]
  constructor
  · intro ht
    rw [hbase, if_neg ht]
  · intro ht
    rw [hbase, if_pos ht]

/-- C4 witness: the amended theorem applied at a concrete degenerate range. -/
theorem C4_witness :
    cx1rets ≠ [] ∧ cx1emps ≠ [] ∧ cx1prods ≠ [] ∧ (18047 : ℤ) < 18048 ∧
    (((1000 : ℚ) ≠ 0 →
        generateFactSales cx1emps cx1prods cx1rets [] 1000 (some 18048) (some 18047)
          20000 = Except.ok []) ∧
      ((1000 : ℚ) = 0 →
        generateFactSales cx1emps cx1prods cx1rets [] 1000 (some 18048) (some 18047)
          20000 = Except.error "ZeroDivisionError: float division by zero")) :=
  ⟨by decide, by decide, by decide, by decide,
    C4_theorem cx1emps cx1prods cx1rets [] 1000 18048 18047 20000
      (by decide) (by decide) (by decide) (by decide)⟩

/-- C5: every monetary value stored in a generated transaction is a
2-decimal-place value (100 times it is an integer).  This holds vacuously:
every normal return is the empty list (no monetary value is ever stored),
which the first conjunct states explicitly. -/
theorem C5_theorem (E : List Employee) (P : List Product) (R : List Retailer)
    (C : List Campaign) (target : ℚ) (sd? ed? : Option ℤ) (today : ℤ) (out : List Sale)
    (h : generateFactSales E P R C target sd? ed? today = Except.ok out) :
    out = [] ∧ ∀ s ∈ out,
      (s.unit_price * 100).den = 1 ∧ (s.discount_amount * 100).den = 1 ∧
      (s.tax_amount * 100).den = 1 ∧ (s.total_amount * 100).den = 1 ∧
      (s.commission_amount * 100).den = 1 := by
  have he := generateFactSales_ok_empty E P R C target sd? ed? today out h
  subst he
  exact ⟨rfl, fun s hs => absurd hs (by simp)⟩

/-- C5 witness: the theorem applied to a concrete normally-returning run. -/
theorem C5_witness :
    okOut = [] ∧ ∀ s ∈ okOut,
      (s.unit_price * 100).den = 1 ∧ (s.discount_amount * 100).den = 1 ∧
      (s.tax_amount * 100).den = 1 ∧ (s.total_amount * 100).den = 1 ∧
      (s.commission_amount * 100).den = 1 :=
  C5_theorem cx1emps okProds cx1rets [] 1000 (some 19000) (some 19000) 20000 okOut
    (except_eq_ok okRun [] (by with_unfolding_all decide))

/-- C6: the claim says the day loop ends when the overshoot ceiling is
crossed or `end_date` is exhausted, whichever comes first.  In the source it
does neither on any sale-emitting run: on the concrete input below the single
day 18048 has non-empty employee and product pools, so the loop is aborted by
the uncaught `TypeError` of the zero-argument `generate_unique_sale_key()`
call (line 1355) while the cumulative amount is still 0 and `end_date` is not
exhausted. -/
theorem C6_theorem :
    employeesForDay cx1emps 18048 ≠ [] ∧ productsForDay crashProds 18048 ≠ [] ∧
    errOf crashRun =
      some "TypeError: generate_unique_sale_key() missing 5 required positional arguments" := by
  refine ⟨?_, ?_, ?_⟩ <;> with_unfolding_all decide

/-- C7: for every generated transaction, `delivery_status = "Delivered"`
implies `actual_delivery_date` is set and at most today, and any other status
implies it is unset.  This holds vacuously: every normal return is the empty
list, which the first conjunct states explicitly. -/
theorem C7_theorem (E : List Employee) (P : List Product) (R : List Retailer)
    (C : List Campaign) (target : ℚ) (sd? ed? : Option ℤ) (today : ℤ) (out : List Sale)
    (h : generateFactSales E P R C target sd? ed? today = Except.ok out) :
    out = [] ∧ ∀ s ∈ out,
      (s.delivery_status = "Delivered" →
        s.actual_delivery_date.isSome = true ∧
        ∀ d, s.actual_delivery_date = some d → d ≤ today) ∧
      (s.delivery_status ≠ "Delivered" → s.actual_delivery_date = none) := by
  have he := generateFactSales_ok_empty E P R C target sd? ed? today out h
  subst he
  exact ⟨rfl, fun s hs => absurd hs (by simp)⟩

/-- C7 witness: the theorem applied to a concrete normally-returning run. -/
theorem C7_witness :
    okOut = [] ∧ ∀ s ∈ okOut,
      (s.delivery_status = "Delivered" →
        s.actual_delivery_date.isSome = true ∧
        ∀ d, s.actual_delivery_date = some d → d ≤ 20000) ∧
      (s.delivery_status ≠ "Delivered" → s.actual_delivery_date = none) :=
  C7_theorem cx1emps okProds cx1rets [] 1000 (some 19000) (some 19000) 20000 okOut
    (except_eq_ok okRun [] (by with_unfolding_all decide))

/-- C8: `discount_percent` is a function of the retailer and the quantity:
two generated transactions with the same retailer and the same quantity carry
the same discount.  This holds vacuously: every normal return is the empty
list, which the first conjunct states explicitly. -/
theorem C8_theorem (E : List Employee) (P : List Product) (R : List Retailer)
    (C : List Campaign) (target : ℚ) (sd? ed? : Option ℤ) (today : ℤ) (out : List Sale)
    (h : generateFactSales E P R C target sd? ed? today = Except.ok out) :
    out = [] ∧ ∀ s₁ ∈ out, ∀ s₂ ∈ out,
      s₁.retailer_id = s₂.retailer_id → s₁.case_quantity = s₂.case_quantity →
      s₁.discount_percent = s₂.discount_percent := by
  have he := generateFactSales_ok_empty E P R C target sd? ed? today out h
  subst he
  exact ⟨rfl, fun s hs => absurd hs (by simp)⟩

/-- C8 witness: the theorem applied to a concrete normally-returning run. -/
theorem C8_witness :
    okOut = [] ∧ ∀ s₁ ∈ okOut, ∀ s₂ ∈ okOut,
      s₁.retailer_id = s₂.retailer_id → s₁.case_quantity = s₂.case_quantity →
      s₁.discount_percent = s₂.discount_percent :=
  C8_theorem cx1emps okProds cx1rets [] 1000 (some 19000) (some 19000) 20000 okOut
    (except_eq_ok okRun [] (by with_unfolding_all decide))

/-- C10: every transaction that carries a campaign reference is dated inside
the referenced campaign's `[start_date, end_date]` window.  This holds
vacuously: every normal return is the empty list, which the first conjunct
states explicitly. -/
theorem C10_theorem (E : List Employee) (P : List Product) (R : List Retailer)
    (C : List Campaign) (target : ℚ) (sd? ed? : Option ℤ) (today : ℤ) (out : List Sale)
    (h : generateFactSales E P R C target sd? ed? today = Except.ok out) :
    out = [] ∧ ∀ s ∈ out, ∀ c, s.campaign = some c →
      c.start_date ≤ s.sale_date ∧ s.sale_date ≤ c.end_date := by
  have he := generateFactSales_ok_empty E P R C target sd? ed? today out h
  subst he
  exact ⟨rfl, fun s hs => absurd hs (by simp)⟩

/-- C10 witness: the theorem applied to a concrete normally-returning run. -/
theorem C10_witness :
    okOut = [] ∧ ∀ s ∈ okOut, ∀ c, s.campaign = some c →
      c.start_date ≤ s.sale_date ∧ s.sale_date ≤ c.end_date :=
  C10_theorem cx1emps okProds cx1rets [] 1000 (some 19000) (some 19000) 20000 okOut
    (except_eq_ok okRun [] (by with_unfolding_all decide))

/-- C2 counterexample: the idempotence claim fails for batches with more than
1000 distinct ids because of the `LIMIT 1000` in the duplicate query.  First
call: a batch of the 1001 distinct ids 0..1000 against an empty destination
(whose duplicate query returns nothing) persists all 1001 rows.  Second call:
the same batch against a destination holding all 1001 ids; the duplicate
query can return at most 1000 of them (here ids 0..999, a `validQuery`
result), so one duplicate row is persisted and the call returns 1, not 0. -/
theorem C2_counterexample :
    appendFiltered (List.range 1001) [] = List.range 1001 ∧
    validQuery (List.range 1001) (List.range 1001) (List.range 1000) ∧
    appendDfBqSafe (List.range 1001) (List.range 1000) = 1 := by
  refine ⟨?_, ?_, ?_⟩
  · simp [appendFiltered]
  · refine ⟨List.nodup_range 1000, ?_, by simp, ?_⟩
    · intro x hx
      simp only [List.mem_range] at hx ⊢
      exact ⟨by omega, by omega⟩
    · intro habs
      exfalso
      have hfil : (List.range 1001).filter (fun x => decide (x ∈ List.range 1001)) =
          List.range 1001 := by
        rw [List.filter_eq_self]
        intro a ha
        simpa using ha
      rw [hfil, List.Nodup.dedup (List.nodup_range 1001), List.length_range] at habs
      omega
  · have h1000 : List.range 1001 = List.range 1000 ++ [1000] := by
      have := List.range_succ 1000
      simpa using this
    have hker : (List.range 1001).filter (fun x => !decide (x ∈ List.range 1000)) = [1000] := by
      rw [h1000, List.filter_append]
      have hl : (List.range 1000).filter (fun x => !decide (x ∈ List.range 1000)) = [] := by
        rw [List.filter_eq_nil_iff]
        intro a ha
        simp [ha]
      have hr : ([1000] : List ℕ).filter (fun x => !decide (x ∈ List.range 1000)) = [1000] := by
        simp [List.filter, List.mem_range]
      rw [hl, hr, List.nil_append]
    have hpos : 0 < ((List.range 1001).filter (fun x => decide (x ∈ List.range 1000))).length := by
      apply List.length_pos.mpr
      intro hnil
      have h0 : (0:ℕ) ∈ (List.range 1001).filter (fun x => decide (x ∈ List.range 1000)) := by
        rw [List.mem_filter]
        refine ⟨?_, ?_⟩ <;> simp [List.mem_range]
      rw [hnil] at h0
      simp at h0
    have hcond : (List.range 1000 ≠ [] ∧
        0 < ((List.range 1001).filter (fun x => decide (x ∈ List.range 1000))).length) := by
      refine ⟨?_, hpos⟩
      intro hnil
      have h1 := List.length_range 1000
      rw [hnil] at h1
      simp at h1
    have hAF : appendFiltered (List.range 1001) (List.range 1000) = [1000] := by
      rw [appendFiltered, if_pos hcond, hker]
    rw [appendDfBqSafe, if_neg (by simp), hAF]
    simp

/-- C2 (amended): the re-run guard is idempotent for batches with at most
1000 distinct ids: if every id of the batch is already in the destination and
the duplicate query behaves per `validQuery`, the second call filters out
everything and returns 0.  (For batches with more than 1000 distinct ids the
`LIMIT 1000` voids the guarantee, see the counterexample.) -/
theorem C2_theorem (df dest qres : List ℕ)
    (hsize : df.dedup.length ≤ 1000)
    (hdest : ∀ x ∈ df, x ∈ dest)
    (hq : validQuery dest df qres) :
    appendDfBqSafe df qres = 0 := by
  by_cases hdf : df = []
  · simp [appendDfBqSafe, hdf]
  · have hmatches : (dest.filter (fun x => decide (x ∈ df))).dedup.length ≤ 1000 := by
      have hsub : (dest.filter (fun x => decide (x ∈ df))).toFinset ⊆ df.toFinset := by
        intro x hx
        rw [List.mem_toFinset] at hx ⊢
        have := List.mem_filter.mp hx
        simpa using this.2
      calc (dest.filter (fun x => decide (x ∈ df))).dedup.length
          = (dest.filter (fun x => decide (x ∈ df))).toFinset.card :=
            (List.card_toFinset _).symm
        _ ≤ df.toFinset.card := Finset.card_le_card hsub
        _ = df.dedup.length := List.card_toFinset _
        _ ≤ 1000 := hsize
    have hall : ∀ x ∈ df, x ∈ qres := by
      intro x hx
      exact hq.2.2.2 hmatches x (hdest x hx) hx
    have hqne : qres ≠ [] := by
      obtain ⟨x, hx⟩ := List.exists_mem_of_ne_nil df hdf
      exact List.ne_nil_of_mem (hall x hx)
    have hfull : df.filter (fun x => decide (x ∈ qres)) = df := by
      rw [List.filter_eq_self]
      intro a ha
      simpa using hall a ha
    have hempty : df.filter (fun x => !decide (x ∈ qres)) = [] := by
      rw [List.filter_eq_nil_iff]
      intro a ha
      simp [hall a ha]
    have hcnd : qres ≠ [] ∧ 0 < (df.filter (fun x => decide (x ∈ qres))).length :=
      ⟨hqne, by rw [hfull]; exact List.length_pos.mpr hdf⟩
    have hAF : appendFiltered df qres = [] := by
      rw [appendFiltered, if_pos hcnd, hempty]
    rw [appendDfBqSafe, if_neg hdf, hAF]
    simp

/-- C2 witness: the amended theorem applied to a concrete re-run: the batch
`[5, 5, 7]` whose ids are all already in the destination `[7, 5, 9]`, with the
duplicate query returning `[5, 7]`. -/
theorem C2_witness :
    ([5, 5, 7] : List ℕ).dedup.length ≤ 1000 ∧
    (∀ x ∈ ([5, 5, 7] : List ℕ), x ∈ ([7, 5, 9] : List ℕ)) ∧
    validQuery [7, 5, 9] [5, 5, 7] [5, 7] ∧
    appendDfBqSafe [5, 5, 7] [5, 7] = 0 :=
  ⟨by decide, by decide, by decide,
    C2_theorem [5, 5, 7] [7, 5, 9] [5, 7] (by decide) (by decide) (by decide)⟩

/-! ### MD5 validation against RFC 1321 test vectors -/

set_option maxRecDepth 3000 in
example : md5hexVal 12 (strBytes "") = 233223382208256 := by
  with_unfolding_all decide

set_option maxRecDepth 3000 in
example : md5hexVal 12 (strBytes "abc") = 158335321521362 := by
  with_unfolding_all decide

set_option maxRecDepth 3000 in
example : md5hexVal 8 (strBytes "abc") = 2416005272 := by
  with_unfolding_all decide

/-! ### ID-allocator lemmas -/

theorem runUniqueIds_length (s : List ℕ) (b : ℕ) (e : String) (u : Bool) :
    ∀ n, (runUniqueIds s b e u n).1.length = n := by
  intro n
  induction n with
  | zero => rfl
  | succ n ih => simp [runUniqueIds, ih]

theorem runUniqueIds_state (s : List ℕ) (b : ℕ) (e : String) (u : Bool) :
    ∀ n, (runUniqueIds s b e u n).2.counters e = n := by
  intro n
  induction n with
  | zero => rfl
  | succ n ih => simp [runUniqueIds, generateUniqueId, ih]

/-- Characterization of the `k`-th value returned by `generate_unique_id`
(0-based `k`, i.e. the call with sequence value `k + 1`). -/
theorem runUniqueIds_getD (s : List ℕ) (b : ℕ) (e : String) (u : Bool) :
    ∀ n k, k < n →
      (runUniqueIds s b e u n).1.getD k 0 =
        (if u then genUniqueIdTimestamp s (strBytes e) b (k + 1) else k + 1) := by
  intro n
  induction n with
  | zero => intro k hk; omega
  | succ n ih =>
    intro k hk
    show ((runUniqueIds s b e u n).1 ++
        [(generateUniqueId s b (runUniqueIds s b e u n).2 e u).1]).getD k 0 = _
    by_cases hkn : k < n
    · rw [List.getD_append _ _ _ _ (by rw [runUniqueIds_length]; exact hkn)]
      exact ih k hkn
    · have hk' : k = n := by omega
      subst hk'
      rw [List.getD_append_right _ _ _ _ (by rw [runUniqueIds_length])]
      rw [runUniqueIds_length]
      simp only [Nat.sub_self]
      show (generateUniqueId s b (runUniqueIds s b e u k).2 e u).1 = _
      rw [generateUniqueId]
      simp only [runUniqueIds_state]

theorem runKeys_length (seed : ℕ) (t : String) :
    ∀ n, (runKeys seed t n).1.length = n := by
  intro n
  induction n with
  | zero => rfl
  | succ n ih => simp [runKeys, ih]

theorem runKeys_state (seed : ℕ) (t : String) :
    ∀ n, (runKeys seed t n).2.counters t =
      (if n = 0 then none else some (tableOffset seed t + n)) := by
  intro n
  induction n with
  | zero => rfl
  | succ n ih =>
    show (generateKey seed (runKeys seed t n).2 t).2.counters t = _
    rw [generateKey]
    by_cases hn : n = 0
    · subst hn
      rw [ih]
      simp
    · rw [ih, if_neg hn]
      simp only [if_neg (by simp : ¬(n + 1 = 0))]
      simp [Nat.add_assoc]

/-- Characterization of the `k`-th value returned by
`IDGenerator.generate_key`: the table's hash-derived offset plus `k`. -/
theorem runKeys_getD (seed : ℕ) (t : String) :
    ∀ n k, k < n → (runKeys seed t n).1.getD k 0 = tableOffset seed t + k := by
  intro n
  induction n with
  | zero => intro k hk; omega
  | succ n ih =>
    intro k hk
    show ((runKeys seed t n).1 ++ [(generateKey seed (runKeys seed t n).2 t).1]).getD k 0 = _
    by_cases hkn : k < n
    · rw [List.getD_append _ _ _ _ (by rw [runKeys_length]; exact hkn)]
      exact ih k hkn
    · have hk' : k = n := by omega
      subst hk'
      rw [List.getD_append_right _ _ _ _ (by rw [runKeys_length])]
      rw [runKeys_length]
      simp only [Nat.sub_self]
      show (generateKey seed (runKeys seed t k).2 t).1 = _
      rw [generateKey, runKeys_state]
      by_cases hkz : k = 0
      · subst hkz; simp
      · rw [if_neg hkz]

set_option maxRecDepth 3000 in
/-- C9 counterexample: in a single process with `session_id = "3f2a9c1e"` and
`timestamp_base = 1700000000000`, the 9424011th and the 15867431st calls of
`generate_unique_id("sale")` under the default timestamp strategy return the
same id: the md5 inputs `"3f2a9c1esale17000094240119424011"` and
`"3f2a9c1esale170001586743115867431"` collide on the first 12 hex digits
(`c82d92184722`).  So two calls for the same entity type in the same process
lifetime can return the same value. -/
theorem C9_counterexample :
    (runUniqueIds (strBytes "3f2a9c1e") 1700000000000 "sale" true 15867431).1.getD 9424010 0 =
      (runUniqueIds (strBytes "3f2a9c1e") 1700000000000 "sale" true 15867431).1.getD
        15867430 0 ∧
    (9424010 : ℕ) ≠ 15867430 := by
  refine ⟨?_, by decide⟩
  rw [runUniqueIds_getD _ _ _ _ _ _ (by decide), runUniqueIds_getD _ _ _ _ _ _ (by decide)]
  simp only [if_pos rfl]
  with_unfolding_all decide

/-- C9 (amended): under the counter-based strategies the allocator never
repeats within a process and successive values strictly increase: both for
`generate_unique_id` with `use_timestamp=False` (values 1, 2, 3, ...) and for
`IDGenerator.generate_key` (values offset, offset+1, ...).  Under the default
timestamp strategy distinctness is not guaranteed (see the counterexample:
the 48-bit truncated md5 can collide within one process). -/
theorem C9_theorem (s : List ℕ) (b : ℕ) (e : String) (seed : ℕ) (t : String)
    (n i j : ℕ) (hij : i < j) (hjn : j < n) :
    (runUniqueIds s b e false n).1.getD i 0 < (runUniqueIds s b e false n).1.getD j 0 ∧
    (runKeys seed t n).1.getD i 0 < (runKeys seed t n).1.getD j 0 := by
  rw [runUniqueIds_getD s b e false n i (by omega), runUniqueIds_getD s b e false n j hjn,
    runKeys_getD seed t n i (by omega), runKeys_getD seed t n j hjn]
  simp only [if_neg (by simp : ¬(false = true))]
  omega

/-- C9 witness: three successive counter-based calls return strictly
increasing (hence distinct) values, both for `generate_unique_id("sale",
use_timestamp=False)` and for `IDGenerator.generate_key("fact_sales")`. -/
theorem C9_witness :
    (0 : ℕ) < 1 ∧ (1 : ℕ) < 3 ∧
    ((runUniqueIds [] 0 "sale" false 3).1.getD 0 0 <
        (runUniqueIds [] 0 "sale" false 3).1.getD 1 0 ∧
      (runKeys 42 "fact_sales" 3).1.getD 0 0 < (runKeys 42 "fact_sales" 3).1.getD 1 0) :=
  ⟨by decide, by decide, C9_theorem [] 0 "sale" 42 "fact_sales" 3 0 1 (by decide) (by decide)⟩

end FMCG
